import Mathlib

/-!
Shallow embedding of the uncommon scraper core (src/scraper/scraper.py,
src/scraper/main.py, src/scraper/models.py): the crawl frontier, the page
extractor's name/color split and image-URL normalization, the locale merge
engine, the image pipeline, and the scraping-job lifecycle.

Network fetches and HTML parsing are modelled as oracle functions passed in
as parameters (page number to listing items, item URL to extracted record,
image URL to optional validated bytes); the database session is modelled as
an explicit record of product and image rows.
-/

namespace Uncommon

/-- The two storefront locales, the `site_type` strings "global" and "kr"
of scraper.py. -/
inductive SiteType where
  | global
  | kr
deriving Repr, DecidableEq

/-- A locale-keyed JSONB map such as `price = {"global": "", "kr": ""}`
(models.py, Product columns price/reward_points/description/material/size).
The code only ever creates and rewrites the two keys "global" and "kr"
(scraper.py `_create_new_product` and `_update_existing_product`), so the
map is embedded with exactly those two fields. -/
structure LocaleMap where
  global : String
  kr : String
deriving Repr, DecidableEq

/-- Read the value stored under one locale's key. -/
def LocaleMap.get (m : LocaleMap) : SiteType → String
  | SiteType.global => m.global
  | SiteType.kr => m.kr

/-- Overwrite the value stored under one locale's key, leaving the other. -/
def LocaleMap.set (m : LocaleMap) : SiteType → String → LocaleMap
  | SiteType.global, v => { m with global := v }
  | SiteType.kr, v => { m with kr := v }

/-- The map `{"global": "", "kr": ""}` used to seed each JSON field in
`_create_new_product`. -/
def emptyLocaleMap : LocaleMap := { global := "", kr := "" }

/-- The five size sub-fields of the extracted record (`product_data
["description"]["size"]` in `_extract_product_info`). -/
structure SizeData where
  lens_width : String
  lens_height : String
  bridge_width : String
  frame_width : String
  temple_length : String
deriving Repr, DecidableEq

/-- The nested description part of the extracted record. -/
structure DescData where
  description : String
  material : String
  size : SizeData
deriving Repr, DecidableEq

/-- The structured record produced by `_extract_product_info` for one item
page. -/
structure ProductData where
  product_name : String
  color : String
  price : String
  reward_points : String
  description : DescData
  isSoldout : Bool
deriving Repr, DecidableEq

/-- The size dict's entries in insertion order, each already paired with the
readable key produced by `key.replace('_', ' ').title()`. -/
def sizeEntries (s : SizeData) : List (String × String) :=
  [("Lens Width", s.lens_width), ("Lens Height", s.lens_height),
   ("Bridge Width", s.bridge_width), ("Frame Width", s.frame_width),
   ("Temple Length", s.temple_length)]

/-- `_format_size_data`: keep the non-empty size entries, render each as
"Key: value", and join with ", ". -/
def format_size_data (s : SizeData) : String :=
  String.intercalate ", "
    ((sizeEntries s).filterMap fun kv =>
      if kv.2 = "" then none else some (kv.1 ++ ": " ++ kv.2))

/-- One row of the products table (models.py, class Product), with the
JSONB locale maps embedded as `LocaleMap`. -/
structure DBProduct where
  id : Nat
  source_global_url : Option String
  source_kr_url : Option String
  product_name : String
  color : String
  price : LocaleMap
  reward_points : LocaleMap
  description : LocaleMap
  material : LocaleMap
  size : LocaleMap
  issoldout : Bool
deriving Repr, DecidableEq

/-- The per-locale source URL columns viewed as one locale-indexed field. -/
def DBProduct.sourceUrl (p : DBProduct) : SiteType → Option String
  | SiteType.global => p.source_global_url
  | SiteType.kr => p.source_kr_url

/-- One row of the product_images table (models.py, class ProductImage);
the binary payload is modelled as an opaque string of bytes. -/
structure DBImage where
  product_id : Nat
  image_data : String
  image_order : Nat
deriving Repr, DecidableEq

/-- The persisted catalog store: products and product_images tables plus
the next autoincrement product id. -/
structure DB where
  products : List DBProduct
  images : List DBImage
  nextId : Nat
deriving Repr, DecidableEq

/-- The lookup in `_scrape_single_product`: first product whose
product_name and color both match. -/
def find_product (db : DB) (name color : String) : Option DBProduct :=
  db.products.find? fun p => p.product_name == name && p.color == color

/-- `_update_existing_product`: rewrite the current locale's source URL,
overwrite only the current locale's key of each JSONB map, and refresh the
sold-out flag from the latest extraction. -/
def update_existing_product (product : DBProduct) (product_url : String)
    (product_data : ProductData) (site_type : SiteType) : DBProduct :=
  let product :=
    match site_type with
    | SiteType.global => { product with source_global_url := some product_url }
    | SiteType.kr => { product with source_kr_url := some product_url }
  { product with
    price := product.price.set site_type product_data.price
    reward_points := product.reward_points.set site_type product_data.reward_points
    description := product.description.set site_type product_data.description.description
    material := product.material.set site_type product_data.description.material
    size := product.size.set site_type (format_size_data product_data.description.size)
    issoldout := product_data.isSoldout }

/-- `_create_new_product`: seed every locale map with empty strings, fill
only the current locale's key, set only the current locale's URL column,
and append the new row with the next id. -/
def create_new_product (db : DB) (product_url : String)
    (product_data : ProductData) (site_type : SiteType) : DB × DBProduct :=
  let product : DBProduct :=
    { id := db.nextId
      source_global_url :=
        match site_type with
        | SiteType.global => some product_url
        | SiteType.kr => none
      source_kr_url :=
        match site_type with
        | SiteType.global => none
        | SiteType.kr => some product_url
      product_name := product_data.product_name
      color := product_data.color
      price := emptyLocaleMap.set site_type product_data.price
      reward_points := emptyLocaleMap.set site_type product_data.reward_points
      description := emptyLocaleMap.set site_type product_data.description.description
      material := emptyLocaleMap.set site_type product_data.description.material
      size := emptyLocaleMap.set site_type (format_size_data product_data.description.size)
      issoldout := product_data.isSoldout }
  ({ db with products := db.products ++ [product], nextId := db.nextId + 1 }, product)

/-- The in-place mutation of the found row performed by
`_update_existing_product`, expressed on the table: replace the row with
the matching id by its updated version. -/
def update_product_in_db (db : DB) (pid : Nat) (product_url : String)
    (product_data : ProductData) (site_type : SiteType) : DB :=
  { db with
    products := db.products.map fun q =>
      if q.id = pid then update_existing_product q product_url product_data site_type
      else q }

/-- Whether the first character list is a leading segment of the second
(executable replacement for the built-in prefix test, which does not
reduce in the kernel). -/
def leadsWith : List Char → List Char → Bool
  | [], _ => true
  | _ :: _, [] => false
  | p :: ps, c :: cs => p == c && leadsWith ps cs

/-- Python's str.startswith, over the underlying character lists. -/
def strStartsWith (s lead : String) : Bool :=
  leadsWith lead.data s.data

/-- Split a character list at the first occurrence of a separator: none
when the separator does not occur, otherwise the characters before it and
the characters after it (Python's str.split(sep, 1) together with the
`sep in s` test). -/
def splitFirstChars (sep : List Char) : List Char → Option (List Char × List Char)
  | [] => none
  | c :: cs =>
    if leadsWith sep (c :: cs) then some ([], (c :: cs).drop sep.length)
    else
      match splitFirstChars sep cs with
      | none => none
      | some lr => some (c :: lr.1, lr.2)

/-- Python's str.strip(): remove leading and trailing whitespace. -/
def strTrim (s : String) : String :=
  String.mk (((s.data.dropWhile Char.isWhitespace).reverse.dropWhile
    Char.isWhitespace).reverse)

/-- The name/color split of `_extract_product_info` (scraper.py lines
285-296): if the fixed separator " - " occurs in the first keyword, split
on its first occurrence and strip both sides; otherwise the whole keyword
is the product name and the color is empty. -/
def split_name_color (first_keyword : String) : String × String :=
  match splitFirstChars " - ".data first_keyword.data with
  | none => (first_keyword, "")
  | some lr => (strTrim (String.mk lr.1), strTrim (String.mk lr.2))

/-- The keyword taken from the meta keywords content: everything before
the first comma (Python's content.split(',')[0]). -/
def first_comma_field (keywords_content : String) : String :=
  match splitFirstChars [','] keywords_content.data with
  | none => keywords_content
  | some lr => String.mk lr.1

/-- The surrounding keyword handling: the meta keywords content is split on
commas and the first keyword, stripped, feeds the name/color split. -/
def extract_name_color (keywords_content : String) : String × String :=
  split_name_color (strTrim (first_comma_field keywords_content))

/-- `_normalize_image_url`: a protocol-relative source (starting with //)
gets the https scheme prepended; every other form is reported as
unexpected and dropped (returns none). -/
def normalize_image_url (src : String) : Option String :=
  if strStartsWith src "//" then some ("https:" ++ src) else none

/-- `_extract_image_urls`: walk the ThumbImage elements in document order
(each modelled as an optional src attribute), normalize each present src,
and keep only the sources the normalizer accepts. -/
def extract_image_urls (image_srcs : List (Option String)) : List String :=
  image_srcs.foldl
    (fun acc src? =>
      match src? with
      | none => acc
      | some src =>
        match normalize_image_url src with
        | some full_url => acc ++ [full_url]
        | none => acc)
    []

/-- `_download_and_save_images`: enumerate the image URLs, fetch each one
(the oracle returns some bytes when the download succeeds and the payload
verifies as an image, none otherwise), keep the enumerate index as
image_order so failed downloads leave gaps, and commit all surviving rows
at the end; a failing final commit rolls the image rows back. The row for
one enumerated URL: present when the download succeeds and the payload
verifies, absent (skipped, leaving an order gap) otherwise. -/
def image_row_of (product_id : Nat) (fetch : String → Option String)
    (ou : Nat × String) : Option DBImage :=
  match fetch ou.2 with
  | some data =>
    some { product_id := product_id, image_data := data, image_order := ou.1 }
  | none => none

/-- The accumulation and final commit of `_download_and_save_images`:
append the surviving image rows in one transaction, or leave the store
untouched when that commit fails and is rolled back. -/
def download_and_save_images (db : DB) (product_id : Nat)
    (image_urls : List String) (fetch : String → Option String)
    (commitOk : Bool) : DB :=
  let newImages := image_urls.enum.filterMap (image_row_of product_id fetch)
  if commitOk then { db with images := db.images ++ newImages } else db

/-- `_scrape_single_product`: the extraction oracle yields the structured
record for the item URL (none models both a failed page fetch and a page
with no identity-bearing name, both of which make the function return
False without writing). On a hit of the (product_name, color) lookup the
existing row is updated; otherwise a new row is created and only then are
images extracted, downloaded and saved. Returns the new store and the
success flag. -/
def scrape_single_product (db : DB) (product_url : String)
    (site_type : SiteType) (extracted : Option ProductData)
    (image_srcs : List (Option String)) (fetch : String → Option String)
    (commitOk : Bool) : DB × Bool :=
  match extracted with
  | none => (db, false)
  | some product_data =>
    match find_product db product_data.product_name product_data.color with
    | some existing =>
      (update_product_in_db db existing.id product_url product_data site_type, true)
    | none =>
      let created := create_new_product db product_url product_data site_type
      let image_urls := extract_image_urls image_srcs
      let db2 :=
        if image_urls.isEmpty then created.1
        else download_and_save_images created.1 created.2.id image_urls fetch commitOk
      (db2, true)

/-- The site root used to absolutize relative listing hrefs. -/
def site_root : SiteType → String
  | SiteType.global => "https://ucmeyewear.earth"
  | SiteType.kr => "https://ucmeyewear.com"

/-- The href absolutization of the frontier loop (scraper.py lines
129-141): a leading slash is joined directly to the site root, an http(s)
href is kept, anything else is joined with an extra slash. -/
def absolutize_link (site_type : SiteType) (href : String) : String :=
  if strStartsWith href "/" then site_root site_type ++ href
  else if strStartsWith href "http" then href
  else site_root site_type ++ "/" ++ href

/-- One page's worth of link accumulation: each prdImg marker optionally
carries an href; its absolute URL is appended only when not already seen
(order-preserving de-duplication against the global accumulator). -/
def add_page_links (site_type : SiteType) (items : List (Option String))
    (acc : List String) : List String :=
  items.foldl
    (fun acc item =>
      match item with
      | none => acc
      | some href =>
        let full_url := absolutize_link site_type href
        if acc.contains full_url then acc else acc ++ [full_url])
    acc

/-- The frontier pagination loop (scraper.py lines 102-153). The pages
oracle maps a page number to either a transport error or the list of
prdImg markers on that page. Starting from page_num with the accumulated
links, the loop stops with the accumulator and the number of the last
fetched page when a page has zero markers, propagates a transport error,
and otherwise folds the page's links in and moves to the next page. The
fuel argument bounds the number of iterations; none means the bound was
hit before the loop ended (an artifact of the embedding, not of the
code). -/
def collect_links (site_type : SiteType)
    (pages : Nat → Except Unit (List (Option String))) :
    Nat → Nat → List String → Option (Except Unit (List String × Nat))
  | 0, _, _ => none
  | fuel + 1, page_num, acc =>
    match pages page_num with
    | Except.error e => some (Except.error e)
    | Except.ok items =>
      if items.isEmpty then some (Except.ok (acc, page_num))
      else collect_links site_type pages fuel (page_num + 1)
        (add_page_links site_type items acc)

/-- The per-locale behaviour of the scraped site as seen by
`scrape_products`, bundled: the listing pages, the per-item extraction
result, the per-item image sources, the image fetch results, and whether
the image commit succeeds. -/
structure SiteOracle where
  pages : Nat → Except Unit (List (Option String))
  extract : String → Option ProductData
  image_srcs : String → List (Option String)
  fetch : String → Option String
  commitOk : Bool

/-- The item loop of `scrape_products` (lines 176-196): process the links
in discovery order, threading the store and counting the items whose
`_scrape_single_product` call returned True (per-item exceptions are
already absorbed into the False result). -/
def process_links (db : DB) (links : List String) (site_type : SiteType)
    (o : SiteOracle) : DB × Nat :=
  links.foldl
    (fun acc link =>
      let r := scrape_single_product acc.1 link site_type (o.extract link)
        (o.image_srcs link) o.fetch o.commitOk
      (r.1, acc.2 + if r.2 then 1 else 0))
    (db, 0)

/-- `scrape_products` for one locale pass. The whole body runs under a
catch-all handler, so a transport error escaping the frontier loop is
swallowed and the pass returns 0 with the store untouched. An empty link
list returns 0; a cap of 0 returns the number of harvested links without
processing anything; a positive cap truncates the list; no cap processes
every link. -/
def scrape_products (db : DB) (site_type : SiteType) (o : SiteOracle)
    (max_products : Option Nat) (fuel : Nat) : Option (DB × Nat) :=
  match collect_links site_type o.pages fuel 1 [] with
  | none => none
  | some (Except.error _) => some (db, 0)
  | some (Except.ok (all_product_links, _)) =>
    if all_product_links.isEmpty then some (db, 0)
    else
      match max_products with
      | some 0 => some (db, all_product_links.length)
      | some (n + 1) =>
        some (process_links db (all_product_links.take (n + 1)) site_type o)
      | none => some (process_links db all_product_links site_type o)

/-- `scrape_products_both_sites`: the global pass runs to completion, then
the kr pass runs on the resulting store, and the two per-pass counts are
summed. -/
def scrape_products_both_sites (db : DB) (oG oK : SiteOracle)
    (max_products : Option Nat) (fuel : Nat) : Option (DB × Nat) :=
  match scrape_products db SiteType.global oG max_products fuel with
  | none => none
  | some r1 =>
    match scrape_products r1.1 SiteType.kr oK max_products fuel with
    | none => none
    | some r2 => some (r2.1, r1.2 + r2.2)

/-- The scraping_jobs status values (models.py, class ScrapingJob). -/
inductive JobStatus where
  | pending
  | running
  | completed
  | failed
deriving Repr, DecidableEq

/-- One snapshot of a scraping_jobs row: status, products_count and the
completion timestamp (none while unset; time is an abstract tick). -/
structure JobRec where
  status : JobStatus
  products_count : Nat
  completed_at : Option Nat
deriving Repr, DecidableEq

/-- The job row as created by `start_scraping` (main.py lines 105-112):
status "pending" with the columns' defaults. -/
def start_scraping_job : JobRec :=
  { status := JobStatus.pending, products_count := 0, completed_at := none }

/-- The commits of `run_scraping` (main.py lines 242-284) after the job row
is found: the job is first committed as running; then, depending on whether
the crawl body returned a count or raised, it is committed as completed
with the final count and a completion timestamp, or as failed with a
completion timestamp and no count update. -/
def run_scraping (job : JobRec) (result : Except Unit Nat) (now : Nat) :
    List JobRec :=
  let j1 := { job with status := JobStatus.running }
  match result with
  | Except.ok n =>
    [j1,
     { j1 with
       status := JobStatus.completed
       products_count := n
       completed_at := some now }]
  | Except.error _ =>
    [j1, { j1 with status := JobStatus.failed, completed_at := some now }]

/-- The committed snapshots of one job over its lifetime: the pending row
created by `start_scraping` followed by the commits of `run_scraping`. -/
def job_trace (result : Except Unit Nat) (now : Nat) : List JobRec :=
  start_scraping_job :: run_scraping start_scraping_job result now

/-- The composition of `run_scraping` with the crawl pipeline: in the
embedding `scrape_products_both_sites` swallows listing transport errors
inside each pass, so whenever it produces a result the job takes the
completed branch with that count. -/
def run_scraping_pipeline (db : DB) (oG oK : SiteOracle)
    (max_products : Option Nat) (fuel now : Nat) :
    Option (DB × List JobRec) :=
  match scrape_products_both_sites db oG oK max_products fuel with
  | none => none
  | some r => some (r.1, job_trace (Except.ok r.2) now)

/-- The opposite locale, used to state frame conditions about the
locale-keyed data the merge does not touch. -/
def SiteType.other : SiteType → SiteType
  | SiteType.global => SiteType.kr
  | SiteType.kr => SiteType.global

/-- C1: For every merge of an extracted record into an already-existing
Product (the update path), every value stored under the other locale's key
in the price, reward_points, description, material, and size maps, and the
other locale's source URL field, are left unchanged (as are the identity
fields product_name, color and id); only the current locale's keys, the
current locale's URL field, and the sold_out flag are rewritten, so data
previously recorded for a different locale is never discarded. -/
theorem uncommon_C1_locale_merge_frame (p : DBProduct) (url : String)
    (d : ProductData) (s : SiteType) :
    let p' := update_existing_product p url d s
    (p'.price.get s.other = p.price.get s.other ∧
     p'.reward_points.get s.other = p.reward_points.get s.other ∧
     p'.description.get s.other = p.description.get s.other ∧
     p'.material.get s.other = p.material.get s.other ∧
     p'.size.get s.other = p.size.get s.other ∧
     p'.sourceUrl s.other = p.sourceUrl s.other ∧
     p'.product_name = p.product_name ∧
     p'.color = p.color ∧
     p'.id = p.id) ∧
    (p'.price.get s = d.price ∧
     p'.reward_points.get s = d.reward_points ∧
     p'.description.get s = d.description.description ∧
     p'.material.get s = d.description.material ∧
     p'.size.get s = format_size_data d.description.size ∧
     p'.sourceUrl s = some url ∧
     p'.issoldout = d.isSoldout) := by
  cases s <;>
    exact ⟨⟨rfl, rfl, rfl, rfl, rfl, rfl, rfl, rfl, rfl⟩,
           ⟨rfl, rfl, rfl, rfl, rfl, rfl, rfl⟩⟩

/-- C6: The raw delimited name field is split on the first occurrence of
the fixed separator " - ", the left side becoming display_name and the
right side color_variant, with color_variant empty when the separator is
absent: "Aviator - Black" yields ("Aviator", "Black"), "Classic" yields
("Classic", ""), and in general any field without the separator yields an
empty color_variant. -/
theorem uncommon_C6_identity_split :
    split_name_color "Aviator - Black" = ("Aviator", "Black") ∧
    split_name_color "Classic" = ("Classic", "") ∧
    ∀ s : String, splitFirstChars " - ".data s.data = none →
      split_name_color s = (s, "") := by
  refine ⟨by decide, by decide, ?_⟩
  intro s h
  unfold split_name_color
  rw [h]

/-- C6 witness: the no-separator case of the split, instantiated. -/
theorem uncommon_C6_identity_split_witness :
    split_name_color "Wayfarer" = ("Wayfarer", "") :=
  uncommon_C6_identity_split.2.2 "Wayfarer" (by decide)

/-- C7 counterexample: an already-absolute image source URL is NOT kept as
is — `_normalize_image_url` accepts only protocol-relative sources, so an
absolute https source is reported as unexpected and dropped from the image
list. -/
theorem uncommon_C7_counterexample :
    normalize_image_url "https://ucmeyewear.com/web/product/big/1.jpg" = none ∧
    extract_image_urls [some "https://ucmeyewear.com/web/product/big/1.jpg"] = [] := by
  refine ⟨by decide, by decide⟩

/-- C7 as amended: a protocol-relative source (starting with //) is
normalized to an absolute https URL and kept; EVERY other form — including
an already-absolute http(s) URL — is treated as unrecognized and dropped
from the image list. -/
theorem uncommon_C7_image_url_normalization (src : String) :
    (strStartsWith src "//" = true →
      normalize_image_url src = some ("https:" ++ src)) ∧
    (strStartsWith src "//" = false → normalize_image_url src = none) := by
  constructor <;> intro h <;> simp [normalize_image_url, h]

/-- C7 witness: both branches of the amended normalization rule,
instantiated. -/
theorem uncommon_C7_image_url_normalization_witness :
    normalize_image_url "//ucmeyewear.com/web/product/big/1.jpg" =
      some ("https:" ++ "//ucmeyewear.com/web/product/big/1.jpg") ∧
    normalize_image_url "http://ucmeyewear.com/web/product/big/1.jpg" = none :=
  ⟨(uncommon_C7_image_url_normalization "//ucmeyewear.com/web/product/big/1.jpg").1 (by decide),
   (uncommon_C7_image_url_normalization "http://ucmeyewear.com/web/product/big/1.jpg").2 (by decide)⟩

/-- C2: After a Product's images are first persisted at creation time,
every subsequent merge of the same (display_name, color_variant) identity
— from either locale — leaves the set of ProductImage rows unchanged:
image download and persistence run only on the creation path, never on the
update path. -/
theorem uncommon_C2_image_write_once (db : DB) (url : String) (s : SiteType)
    (d : ProductData) (srcs : List (Option String))
    (fetch : String → Option String) (commitOk : Bool) (p : DBProduct)
    (h : find_product db d.product_name d.color = some p) :
    (scrape_single_product db url s (some d) srcs fetch commitOk).1.images =
      db.images := by
  simp only [scrape_single_product]
  rw [h]
  rfl

/-- A size record with every sub-field empty, as extracted from a page
whose description block carries no size lines. -/
def size_empty : SizeData :=
  { lens_width := "", lens_height := "", bridge_width := "",
    frame_width := "", temple_length := "" }

/-- An extracted global-locale record for the identity (Aviator, Black). -/
def data_g : ProductData :=
  { product_name := "Aviator", color := "Black", price := "$100.00",
    reward_points := "$2.00",
    description := { description := "Acetate frame", material := "Acetate",
                     size := size_empty },
    isSoldout := false }

/-- An extracted kr-locale record for the same identity (Aviator, Black). -/
def data_k : ProductData :=
  { product_name := "Aviator", color := "Black", price := "120,000",
    reward_points := "1,200",
    description := { description := "아세테이트 프레임", material := "아세테이트",
                     size := size_empty },
    isSoldout := true }

/-- The product row created by persisting `data_g` from the global pass. -/
def product_g : DBProduct :=
  (create_new_product { products := [], images := [], nextId := 1 }
    "https://ucmeyewear.earth/item1" data_g SiteType.global).2

/-- A store already holding the (Aviator, Black) identity and one image
row for it. -/
def db_one : DB :=
  { products := [product_g],
    images := [{ product_id := 1, image_data := "IMGBYTES0", image_order := 0 }],
    nextId := 2 }

/-- C2 witness: a kr-locale merge into a store that already holds the
identity and its image row leaves the image table unchanged. -/
theorem uncommon_C2_image_write_once_witness :
    (scrape_single_product db_one "https://ucmeyewear.com/item1" SiteType.kr
      (some data_k) [some "//img.ucmeyewear.com/2.jpg"]
      (fun _ => some "IMGBYTES1") true).1.images = db_one.images :=
  uncommon_C2_image_write_once db_one "https://ucmeyewear.com/item1"
    SiteType.kr data_k [some "//img.ucmeyewear.com/2.jpg"]
    (fun _ => some "IMGBYTES1") true product_g (by decide)

/-- The empty catalog store. -/
def db0 : DB := { products := [], images := [], nextId := 1 }

/-- A listing whose every page fetch raises a transport error. -/
def pages_error : Nat → Except Unit (List (Option String)) :=
  fun _ => Except.error ()

/-- A locale whose listing fetches always fail with a transport error. -/
def oracle_error : SiteOracle :=
  { pages := pages_error, extract := fun _ => none, image_srcs := fun _ => [],
    fetch := fun _ => none, commitOk := true }

/-- C3 counterexample: with a transport error on the very first listing
page of both passes, the error does NOT propagate out of the locale pass —
`scrape_products` swallows it and returns 0 — and the job is marked
completed, not failed. -/
theorem uncommon_C3_counterexample :
    scrape_products db0 SiteType.global oracle_error none 5 = some (db0, 0) ∧
    run_scraping_pipeline db0 oracle_error oracle_error none 5 0 =
      some (db0, job_trace (Except.ok 0) 0) ∧
    (job_trace (Except.ok 0) 0).map JobRec.status =
      [JobStatus.pending, JobStatus.running, JobStatus.completed] := by
  refine ⟨rfl, rfl, rfl⟩

/-- C3 as amended: a transport error while fetching a listing page is
caught by the catch-all handler of that locale's pass, which aborts
frontier expansion and makes the pass return 0 with the store untouched;
the error does not propagate, the other locale's pass still contributes
its result, and the crawl job is marked completed, not failed. -/
theorem uncommon_C3_listing_error_swallowed (db : DB) (oG oK : SiteOracle)
    (mp : Option Nat) (fuel now : Nat) (e : Unit) (r : DB × Nat)
    (hG : collect_links SiteType.global oG.pages fuel 1 [] =
      some (Except.error e))
    (hK : scrape_products db SiteType.kr oK mp fuel = some r) :
    scrape_products db SiteType.global oG mp fuel = some (db, 0) ∧
    scrape_products_both_sites db oG oK mp fuel = some (r.1, r.2) ∧
    run_scraping_pipeline db oG oK mp fuel now =
      some (r.1, job_trace (Except.ok r.2) now) ∧
    (job_trace (Except.ok r.2) now).map JobRec.status =
      [JobStatus.pending, JobStatus.running, JobStatus.completed] := by
  have h1 : scrape_products db SiteType.global oG mp fuel = some (db, 0) := by
    unfold scrape_products
    rw [hG]
  have h2 : scrape_products_both_sites db oG oK mp fuel = some (r.1, r.2) := by
    unfold scrape_products_both_sites
    rw [h1]
    simp only [hK, Nat.zero_add]
  refine ⟨h1, h2, ?_, rfl⟩
  unfold run_scraping_pipeline
  rw [h2]

/-- C3 amended witness: the swallowed-error behaviour instantiated with
transport errors on both passes. -/
theorem uncommon_C3_listing_error_swallowed_witness :
    scrape_products db0 SiteType.global oracle_error none 5 = some (db0, 0) ∧
    scrape_products_both_sites db0 oracle_error oracle_error none 5 =
      some (db0, 0) ∧
    run_scraping_pipeline db0 oracle_error oracle_error none 5 3 =
      some (db0, job_trace (Except.ok 0) 3) ∧
    (job_trace (Except.ok 0) 3).map JobRec.status =
      [JobStatus.pending, JobStatus.running, JobStatus.completed] :=
  uncommon_C3_listing_error_swallowed db0 oracle_error oracle_error none 5 3
    () (db0, 0) rfl rfl

/-- A listing whose three pages yield 5, 3 and 0 item markers, all links
distinct. -/
def pages530 : Nat → Except Unit (List (Option String)) := fun p =>
  match p with
  | 1 => Except.ok [some "/p1", some "/p2", some "/p3", some "/p4", some "/p5"]
  | 2 => Except.ok [some "/p6", some "/p7", some "/p8"]
  | _ => Except.ok []

/-- The eight absolute links harvested from `pages530` on the global
site, in discovery order. -/
def links530 : List String :=
  ["https://ucmeyewear.earth/p1", "https://ucmeyewear.earth/p2",
   "https://ucmeyewear.earth/p3", "https://ucmeyewear.earth/p4",
   "https://ucmeyewear.earth/p5", "https://ucmeyewear.earth/p6",
   "https://ucmeyewear.earth/p7", "https://ucmeyewear.earth/p8"]

/-- A listing whose second page re-serves the first page's two items
(markers present, but every link already seen) and whose third page is
empty. -/
def pages_dup : Nat → Except Unit (List (Option String)) := fun p =>
  match p with
  | 1 => Except.ok [some "/a", some "/b"]
  | 2 => Except.ok [some "/a", some "/b"]
  | _ => Except.ok []

/-- C4: Frontier pagination starts at page 1, fetches successive listing
pages, and terminates exactly when a fetched page contains zero item
markers: a page with zero markers stops the loop at that page, a page with
markers always continues to the next page — even when its markers yield
only already-seen links — and links accumulate in discovery order with
duplicates by absolute URL dropped. For pages yielding [5, 3, 0] markers
with distinct links, exactly 3 pages are fetched and the 8 unique links
are returned; for pages yielding [2, 2dup, 0], 3 pages are fetched and 2
links are returned. -/
theorem uncommon_C4_pagination_termination :
    (∀ (s : SiteType) (pages : Nat → Except Unit (List (Option String)))
       (fuel page_num : Nat) (acc : List String),
       pages page_num = Except.ok [] →
       collect_links s pages (fuel + 1) page_num acc =
         some (Except.ok (acc, page_num))) ∧
    (∀ (s : SiteType) (pages : Nat → Except Unit (List (Option String)))
       (fuel page_num : Nat) (acc : List String)
       (items : List (Option String)),
       pages page_num = Except.ok items → items ≠ [] →
       collect_links s pages (fuel + 1) page_num acc =
         collect_links s pages fuel (page_num + 1)
           (add_page_links s items acc)) ∧
    collect_links SiteType.global pages530 10 1 [] =
      some (Except.ok (links530, 3)) ∧
    links530.length = 8 ∧
    collect_links SiteType.global pages_dup 10 1 [] =
      some (Except.ok (["https://ucmeyewear.earth/a",
        "https://ucmeyewear.earth/b"], 3)) := by
  refine ⟨?_, ?_, by rfl, by decide, by rfl⟩
  · intro s pages fuel page_num acc h
    unfold collect_links
    rw [h]
    rfl
  · intro s pages fuel page_num acc items h hne
    cases items with
    | nil => exact absurd rfl hne
    | cons a t =>
      conv_lhs => unfold collect_links
      rw [h]
      rfl

/-- C4 witness: the zero-marker stop rule and the nonempty-marker
continuation rule, instantiated on the [5, 3, 0] listing. -/
theorem uncommon_C4_pagination_termination_witness :
    collect_links SiteType.global pages530 1 3 ["https://ucmeyewear.earth/p1"] =
      some (Except.ok (["https://ucmeyewear.earth/p1"], 3)) ∧
    collect_links SiteType.global pages530 10 1 [] =
      collect_links SiteType.global pages530 9 2
        (add_page_links SiteType.global
          [some "/p1", some "/p2", some "/p3", some "/p4", some "/p5"] []) :=
  ⟨uncommon_C4_pagination_termination.1 SiteType.global pages530 0 3
      ["https://ucmeyewear.earth/p1"] rfl,
   uncommon_C4_pagination_termination.2.1 SiteType.global pages530 9 1 []
      [some "/p1", some "/p2", some "/p3", some "/p4", some "/p5"] rfl
      (by decide)⟩

/-- The [5, 3, 0] listing bundled as a locale oracle; the per-item parts
are irrelevant for a dry run. -/
def oracle530 : SiteOracle :=
  { pages := pages530, extract := fun _ => none, image_srcs := fun _ => [],
    fetch := fun _ => none, commitOk := true }

/-- C5: A crawl invoked with item cap 0 (dry run) performs no Product or
ProductImage writes and no item-page extraction or merge — the store comes
back untouched — and the locale pass returns the number of unique item
links discovered. -/
theorem uncommon_C5_dry_run (db : DB) (s : SiteType) (o : SiteOracle)
    (fuel : Nat) (links : List String) (last : Nat)
    (h : collect_links s o.pages fuel 1 [] = some (Except.ok (links, last))) :
    scrape_products db s o (some 0) fuel = some (db, links.length) := by
  unfold scrape_products
  rw [h]
  cases links with
  | nil => rfl
  | cons a t => rfl

/-- C5 witness: a dry run over the [5, 3, 0] listing touches nothing and
reports the 8 harvested links. -/
theorem uncommon_C5_dry_run_witness :
    scrape_products db0 SiteType.global oracle530 (some 0) 10 =
      some (db0, 8) :=
  uncommon_C5_dry_run db0 SiteType.global oracle530 10 links530 3 (by rfl)

/-- C8: The committed snapshots of a ScrapingJob over its lifetime are
exactly pending, running, then one terminal state — so every observed
status sequence is a subsequence of pending, running, completed or of
pending, running, failed, running is never skipped, a terminal state is
never left, and completed_at is set exactly at the terminal transition. -/
theorem uncommon_C8_job_lifecycle (result : Except Unit Nat) (now : Nat) :
    (job_trace result now).map (fun j => (j.status, j.completed_at.isSome)) =
      [(JobStatus.pending, false), (JobStatus.running, false),
       (JobStatus.completed, true)] ∨
    (job_trace result now).map (fun j => (j.status, j.completed_at.isSome)) =
      [(JobStatus.pending, false), (JobStatus.running, false),
       (JobStatus.failed, true)] := by
  cases result with
  | ok n => exact Or.inl rfl
  | error e => exact Or.inr rfl

/-- A one-item listing: page 1 carries a single marker, page 2 is empty. -/
def pages_one : Nat → Except Unit (List (Option String)) := fun p =>
  match p with
  | 1 => Except.ok [some "/item1"]
  | _ => Except.ok []

/-- The global pass of a run in which the same identity is served by both
locales. -/
def oracle_g9 : SiteOracle :=
  { pages := pages_one, extract := fun _ => some data_g,
    image_srcs := fun _ => [some "//img.ucmeyewear.earth/1.jpg"],
    fetch := fun _ => some "IMGBYTES0", commitOk := true }

/-- The kr pass of the same run: the one item extracts to the same
(Aviator, Black) identity. -/
def oracle_k9 : SiteOracle :=
  { pages := pages_one, extract := fun _ => some data_k,
    image_srcs := fun _ => [some "//img.ucmeyewear.com/2.jpg"],
    fetch := fun _ => some "IMGBYTES1", commitOk := true }

/-- C9: A product identity successfully extracted in both locale passes of
one run contributes 2 to the run's final products_count — the update path
counts exactly like the creation path — so products_count (2) exceeds the
number of distinct Product rows created or touched (1); the job record
ends with products_count 2. -/
theorem uncommon_C9_update_path_counts_again :
    (scrape_products_both_sites db0 oracle_g9 oracle_k9 none 5).map
        (fun r => (r.2, r.1.products.length, r.1.images.length)) =
      some (2, 1, 1) ∧
    (job_trace (Except.ok 2) 0).map JobRec.products_count = [0, 0, 2] := by
  refine ⟨by rfl, by rfl⟩

/-- Downloading and saving images never touches the products table. -/
theorem download_and_save_images_products (db : DB) (pid : Nat)
    (urls : List String) (fetch : String → Option String) (c : Bool) :
    (download_and_save_images db pid urls fetch c).products = db.products := by
  unfold download_and_save_images
  cases c <;> rfl

/-- When every download fails validation, or the final commit fails and is
rolled back, the image table is left untouched. -/
theorem download_and_save_images_images_of_failure (db : DB) (pid : Nat)
    (urls : List String) (fetch : String → Option String) (c : Bool)
    (h : (∀ u, fetch u = none) ∨ c = false) :
    (download_and_save_images db pid urls fetch c).images = db.images := by
  rcases h with hf | hc
  · have hnil : urls.enum.filterMap (image_row_of pid fetch) =
        ([] : List DBImage) :=
      List.filterMap_eq_nil_iff.mpr fun a _ => by
        unfold image_row_of
        rw [hf a.2]
    cases c
    · simp [download_and_save_images]
    · simp [download_and_save_images, hnil]
  · subst hc
    simp [download_and_save_images]

/-- C10: Product creation and image persistence are not atomic — on the
creation path the Product row is committed before any image is fetched, so
when every image download fails validation, or the final image commit
fails and is rolled back silently, the Product row still exists with zero
ProductImage rows and the item is still counted as successfully
processed. -/
theorem uncommon_C10_nonatomic_creation (db : DB) (url : String)
    (s : SiteType) (d : ProductData) (srcs : List (Option String))
    (fetch : String → Option String) (commitOk : Bool)
    (hnew : find_product db d.product_name d.color = none)
    (hfail : (∀ u, fetch u = none) ∨ commitOk = false) :
    (scrape_single_product db url s (some d) srcs fetch commitOk).2 = true ∧
    (scrape_single_product db url s (some d) srcs fetch commitOk).1.products =
      db.products ++ [(create_new_product db url d s).2] ∧
    (scrape_single_product db url s (some d) srcs fetch commitOk).1.images =
      db.images := by
  have e : scrape_single_product db url s (some d) srcs fetch commitOk =
      (if (extract_image_urls srcs).isEmpty then (create_new_product db url d s).1
       else download_and_save_images (create_new_product db url d s).1
         (create_new_product db url d s).2.id (extract_image_urls srcs)
         fetch commitOk,
       true) := by
    simp only [scrape_single_product]
    rw [hnew]
  rw [e]
  refine ⟨rfl, ?_, ?_⟩
  · by_cases h1 : (extract_image_urls srcs).isEmpty = true
    · rw [if_pos h1]
      rfl
    · rw [if_neg h1, download_and_save_images_products]
      rfl
  · by_cases h1 : (extract_image_urls srcs).isEmpty = true
    · rw [if_pos h1]
      rfl
    · rw [if_neg h1,
        download_and_save_images_images_of_failure _ _ _ _ _ hfail]
      rfl

/-- C10 witness: creating (Aviator, Black) in an empty store while every
image download fails leaves a product row with no image rows, and the item
still counts as processed. -/
theorem uncommon_C10_nonatomic_creation_witness :
    (scrape_single_product db0 "https://ucmeyewear.earth/item1"
      SiteType.global (some data_g) [some "//img.ucmeyewear.earth/1.jpg"]
      (fun _ => none) true).2 = true ∧
    (scrape_single_product db0 "https://ucmeyewear.earth/item1"
      SiteType.global (some data_g) [some "//img.ucmeyewear.earth/1.jpg"]
      (fun _ => none) true).1.products =
      db0.products ++
        [(create_new_product db0 "https://ucmeyewear.earth/item1" data_g
          SiteType.global).2] ∧
    (scrape_single_product db0 "https://ucmeyewear.earth/item1"
      SiteType.global (some data_g) [some "//img.ucmeyewear.earth/1.jpg"]
      (fun _ => none) true).1.images = db0.images :=
  uncommon_C10_nonatomic_creation db0 "https://ucmeyewear.earth/item1"
    SiteType.global data_g [some "//img.ucmeyewear.earth/1.jpg"]
    (fun _ => none) true (by rfl) (Or.inl fun u => rfl)

end Uncommon
